import Mathlib

/-!
Shallow embedding of the kite-chat shared-worker connection multiplexer
(`timeline-container-mixin.ts`, worker part) and of the tab controller's
zipped-message handler (`kite-chat.ts`), with theorems checking the
natural-language specification against the code.

Conventions: the worker's module-level mutable variables (`ws`,
`joinChannel`, `messageHistory`, `outgoingQueue`, `tabPorts`, `online`,
`connectedTimestampMs`, `reconnectionAttempts`) become fields of
`WorkerState`; each event handler becomes a function from its payload and
the current state to a new state plus a list of observable `Effect`s and
an optional thrown error (a JS exception escaping the handler leaves the
mutations made before the throw in place, which `HResult` preserves).
Wall-clock reads (`Date.now()`) are passed in as a `now : Nat` argument.
-/

/-- Message delivery status, from `MsgStatus` in the component types. -/
inductive MsgStatus where
  | unknown
  | sent
  | delivered
  | read
  | failed
deriving DecidableEq, Repr

/-- The metadata of a browser `File` object that the worker reads
(`file.name`, `file.type`, `file.size`). -/
structure File where
  name : String
  ftype : String
  size : Nat
deriving DecidableEq, Repr

/-- Payload of a content message: plaintext (`PlaintextMsg.text`) or a file
(`FileMsg.file`, `batchId`, `totalFiles`). -/
inductive MsgBody where
  | text (s : String)
  | file (f : File) (batchId : Option String) (totalFiles : Option Nat)
deriving DecidableEq, Repr

/-- A content message (`ContentMsg = PlaintextMsg | FileMsg`): the common
`BaseMsg` fields plus the payload body. -/
structure ContentMsg where
  messageId : String
  timestamp : Nat
  status : MsgStatus
  edited : Bool
  body : MsgBody
deriving DecidableEq, Repr

/-- A binary-reference message from the backend (`BinMsg`): base fields plus
the reference `url` to fetch. -/
structure BinMsg where
  messageId : String
  timestamp : Nat
  status : MsgStatus
  edited : Bool
  url : String
deriving DecidableEq, Repr

/-- An upload-intent control message (`Upload`), derived from a file message
in `onFileMessage`. -/
structure Upload where
  messageId : String
  fileName : String
  fileType : String
  fileSize : Nat
deriving DecidableEq, Repr

/-- A message acknowledgment frame (`MsgAck`). -/
structure MsgAck where
  messageId : String
  destiationMessageId : String
  timestamp : Nat
deriving DecidableEq, Repr

/-- The join request (`JoinChannel`): endpoint plus connection options. -/
structure JoinChannel where
  endpoint : String
  memberId : String
  eagerlyConnect : Bool
deriving DecidableEq, Repr

/-- The protocol frames exchanged over tab ports and the websocket
(`KiteMsg` union, discriminated by `MsgType`). The `zipped` constructor is
modelled from the spec: the worker's `kite-types.ts` is not in the sources,
and §4.4 describes a batch/zip notification correlating a new canonical
message with the prior local ids it supersedes. -/
inductive KiteMsg where
  | plaintext (m : ContentMsg)
  | file (m : ContentMsg)
  | bin (m : BinMsg)
  | upload (u : Upload)
  | join (j : JoinChannel)
  | ack (a : MsgAck)
  | errorResponse (code : Nat) (reason : String)
  | connected (messageHistory : List ContentMsg)
  | disconnected
  | online
  | offline (sessionDurationMs : Nat)
  | zipped (messageId : String) (zippedIds : List String) (url : String)
deriving DecidableEq, Repr

/-- `WebSocket.readyState` values. -/
inductive WsReadyState where
  | connecting
  | open
  | closing
  | closed
deriving DecidableEq, Repr

/-- Observable side effects of a handler invocation: port posts, broadcasts
(with the optionally excluded originating port), websocket sends and closes,
and (re)connection scheduling. -/
inductive Effect where
  | post (port : Nat) (msg : KiteMsg)
  | broadcast (msg : KiteMsg) (exclude : Option Nat)
  | wireSend (msg : KiteMsg)
  | portClose (port : Nat)
  | wsClose (code : Nat) (reason : String)
  | scheduleReconnect (delayMs : Nat)
  | connectNow (endpoint : String)
deriving DecidableEq, Repr

/-- The worker's module-level mutable state. `ws` is `none` when the
variable is `null`, otherwise it carries the socket's `readyState`.
`tabPorts` is the `Set` of connected ports, as an insertion-ordered list of
distinct port ids. -/
structure WorkerState where
  ws : Option WsReadyState
  joinChannel : Option JoinChannel
  messageHistory : List ContentMsg
  outgoingQueue : List KiteMsg
  tabPorts : List Nat
  online : Bool
  connectedTimestampMs : Nat
  reconnectionAttempts : Nat
deriving DecidableEq, Repr

/-- Result of running one handler: the state after all mutations, the
effects emitted, and the message of the exception if one escaped. -/
structure HResult where
  state : WorkerState
  effects : List Effect
  error : Option String
deriving DecidableEq, Repr

/-- `MIN_RECONNECTION_INTERVAL_MS = 1000 * 60`. -/
def MIN_RECONNECTION_INTERVAL_MS : Nat := 1000 * 60

/-- `flushQueue`: attempt the queued envelopes front to back, shifting each
off the queue only after its send succeeds; a failing send throws out of
the loop, leaving that envelope and everything after it queued. Returns
the envelopes sent (in order) and the remaining queue. The worker calls it
with `send` fixed to the websocket send; the claim about flush quantifies
over the send function, so it is kept as a parameter. -/
def flushQueue {α : Type} (send : α → Bool) : List α → List α × List α
  | [] => ([], [])
  | e :: rest =>
    if send e then
      let r := flushQueue send rest
      (e :: r.1, r.2)
    else ([], e :: rest)

/-- When every send succeeds, `flushQueue` sends the whole queue. -/
theorem flushQueue_all {α : Type} (send : α → Bool)
    (q : List α) (h : ∀ x ∈ q, send x = true) :
    flushQueue send q = (q, []) := by
  induction q with
  | nil => rfl
  | cons e rest ih =>
    have he : send e = true := h e (List.mem_cons_self e rest)
    have hr := ih fun x hx => h x (List.mem_cons_of_mem e hx)
    simp [flushQueue, he, hr]

/-- C1: `flush` attempts envelopes in FIFO order, removes each only after a
successful send, and stops at the first failure: if every envelope of the
prefix `a` sends successfully and envelope `e` fails, exactly `a` is
removed and `e :: b` remains, in original order; flushing an empty queue
is a no-op. -/
theorem flushQueue_fifo_c1 {α : Type} (send : α → Bool)
    (a : List α) (e : α) (b : List α)
    (hok : ∀ x ∈ a, send x = true) (hfail : send e = false) :
    flushQueue send (a ++ e :: b) = (a, e :: b) ∧
    flushQueue send ([] : List α) = ([], []) := by
  refine ⟨?_, rfl⟩
  induction a with
  | nil => simp [flushQueue, hfail]
  | cons x xs ih =>
    have hx : send x = true := hok x (List.mem_cons_self x xs)
    have hxs := ih fun y hy => hok y (List.mem_cons_of_mem x hy)
    simp [flushQueue, hx, hxs]

/-- Witness for C1 at a concrete queue: sends succeed on values below 3,
the queue is `[1, 2, 3, 4]`, so flush removes `[1, 2]` and stops at `3`. -/
theorem flushQueue_fifo_c1_witness :
    flushQueue (fun n => decide (n < 3)) ([1, 2] ++ 3 :: [4]) = ([1, 2], 3 :: [4]) ∧
    flushQueue (fun n => decide (n < 3)) ([] : List Nat) = ([], []) :=
  flushQueue_fifo_c1 (fun n => decide (n < 3)) [1, 2] 3 [4]
    (by decide) (by decide)

/-- `triggerWsConnection`: logs (incrementing `reconnectionAttempts`),
asserts a `joinChannel` is present (throwing otherwise), then constructs a
new `WebSocket` on the stored endpoint, entering the `CONNECTING` state. -/
def triggerWsConnection (s : WorkerState) : HResult :=
  let s := { s with reconnectionAttempts := s.reconnectionAttempts + 1 }
  match s.joinChannel with
  | none => ⟨s, [], some "Missing websocket connection configuration"⟩
  | some jc =>
    ⟨{ s with ws := some WsReadyState.connecting }, [Effect.connectNow jc.endpoint], none⟩

/-- `onTabConnected`: register the port (a `Set`, so adding an existing port
is a no-op) and immediately post it the `CONNECTED` snapshot carrying the
whole `messageHistory`. -/
def onTabConnected (port : Nat) (s : WorkerState) : WorkerState × List Effect :=
  let ports := if port ∈ s.tabPorts then s.tabPorts else s.tabPorts ++ [port]
  ({ s with tabPorts := ports },
   [Effect.post port (KiteMsg.connected s.messageHistory)])

/-- `onTabDisconnected`: close and remove the port; if no tabs remain and a
websocket exists, close it with code 1001 (going away). `ws` itself is not
nulled here — that happens in `onWsClose`. -/
def onTabDisconnected (port : Nat) (s : WorkerState) : WorkerState × List Effect :=
  let ports := s.tabPorts.filter (fun p => p ≠ port)
  let closeEffs :=
    if ports.length = 0 then
      match s.ws with
      | some _ => [Effect.wsClose 1001 "all active tabs closed"]
      | none => []
    else []
  ({ s with tabPorts := ports }, Effect.portClose port :: closeEffs)

/-- `onJoinChannel`: `joinChannel = joinChannel || payload`, then OR the
`eagerlyConnect` flag into the stored config, then assert the endpoints
match (throwing a configuration-conflict error otherwise — note the OR
mutation has already happened), and finally trigger a connection when no
websocket exists and eager connect is requested. -/
def onJoinChannel (payload : JoinChannel) (s : WorkerState) : HResult :=
  let jc0 := s.joinChannel.getD payload
  let jc := { jc0 with eagerlyConnect := jc0.eagerlyConnect || payload.eagerlyConnect }
  let s := { s with joinChannel := some jc }
  if jc.endpoint ≠ payload.endpoint then
    ⟨s, [], some "Cannot use different chat endpoints for the same domain"⟩
  else if s.ws = none ∧ jc.eagerlyConnect = true then
    triggerWsConnection s
  else ⟨s, [], none⟩

/-- Fold a sequence of join requests through `onJoinChannel`, keeping the
state each handler leaves behind (exceptions are fatal only to the
requesting operation). -/
def applyJoins (payloads : List JoinChannel) (s : WorkerState) : WorkerState :=
  payloads.foldl (fun s p => (onJoinChannel p s).state) s

/-- `send`: assert a websocket exists and is `OPEN`, then send the encoded
frame. Returns the effects and the thrown error, if any. -/
def wsSend (s : WorkerState) (msg : KiteMsg) : List Effect × Option String :=
  match s.ws with
  | none => ([], some "No Websocket connection")
  | some st =>
    if st = WsReadyState.open then ([Effect.wireSend msg], none)
    else ([], some "Websocket is not ready")

/-- Whether a websocket send would currently succeed (`ws.readyState ===
ws.OPEN`); this is the send predicate the worker's `flushQueue` runs with. -/
def wsSendOk (s : WorkerState) : Bool := decide (s.ws = some WsReadyState.open)

/-- `onPlaintextMessage`: push to history and to the outgoing queue,
broadcast to the other tabs, then flush if the websocket is open, else
trigger a connection if online. -/
def onPlaintextMessage (payload : ContentMsg) (tabPort : Nat) (s : WorkerState) : HResult :=
  let s := { s with
    messageHistory := s.messageHistory ++ [payload],
    outgoingQueue := s.outgoingQueue ++ [KiteMsg.plaintext payload] }
  let bEff := Effect.broadcast (KiteMsg.plaintext payload) (some tabPort)
  match s.ws with
  | some st =>
    if st = WsReadyState.open then
      let r := flushQueue (fun _ => wsSendOk s) s.outgoingQueue
      ⟨{ s with outgoingQueue := r.2 }, bEff :: r.1.map Effect.wireSend,
        if r.2.isEmpty then none else some "Websocket is not ready"⟩
    else ⟨s, [bEff], none⟩
  | none =>
    if s.online then
      let r := triggerWsConnection s
      ⟨r.state, bEff :: r.effects, r.error⟩
    else ⟨s, [bEff], none⟩

/-- `onFileMessage`: push the file message to history, broadcast it to the
other tabs, enqueue the derived upload intent, then flush or trigger a
connection exactly as for plaintext. The file metadata is read off the
message's file body. -/
def onFileMessage (payload : ContentMsg) (f : File) (tabPort : Nat) (s : WorkerState) : HResult :=
  let upload : Upload := ⟨payload.messageId, f.name, f.ftype, f.size⟩
  let s := { s with
    messageHistory := s.messageHistory ++ [payload],
    outgoingQueue := s.outgoingQueue ++ [KiteMsg.upload upload] }
  let bEff := Effect.broadcast (KiteMsg.file payload) (some tabPort)
  match s.ws with
  | some st =>
    if st = WsReadyState.open then
      let r := flushQueue (fun _ => wsSendOk s) s.outgoingQueue
      ⟨{ s with outgoingQueue := r.2 }, bEff :: r.1.map Effect.wireSend,
        if r.2.isEmpty then none else some "Websocket is not ready"⟩
    else ⟨s, [bEff], none⟩
  | none =>
    if s.online then
      let r := triggerWsConnection s
      ⟨r.state, bEff :: r.effects, r.error⟩
    else ⟨s, [bEff], none⟩

/-- Update the last element satisfying `p` (the counterpart of
`messageHistory.findLast` followed by an in-place mutation). -/
def updateLastMatch {α : Type} (p : α → Bool) (f : α → α) : List α → List α
  | [] => []
  | x :: xs =>
    if xs.any p then x :: updateLastMatch p f xs
    else if p x then f x :: xs
    else x :: xs

/-- `onMessageAck`: find the most recent history entry with the acked local
id (`findLast`), mutate it in place to the canonical id with status
`delivered` (warning instead when no entry matches), then broadcast the ack
payload itself to all tabs. -/
def onMessageAck (a : MsgAck) (s : WorkerState) : HResult :=
  let p : ContentMsg → Bool := fun m => decide (m.messageId = a.messageId)
  let hist :=
    if s.messageHistory.any p then
      updateLastMatch p
        (fun m => { m with messageId := a.destiationMessageId,
                           status := MsgStatus.delivered })
        s.messageHistory
    else s.messageHistory
  ⟨{ s with messageHistory := hist }, [Effect.broadcast (KiteMsg.ack a) none], none⟩

/-- `onWsOpen`: record the connection timestamp, assert the stored
`joinChannel` exists, send it, flush the outgoing queue, and only then
broadcast the `ONLINE` state change. A send failure throws past the
remaining steps. -/
def onWsOpen (now : Nat) (s : WorkerState) : HResult :=
  let s := { s with connectedTimestampMs := now }
  match s.joinChannel with
  | none => ⟨s, [], some "no pending joinChannel message"⟩
  | some jc =>
    match wsSend s (KiteMsg.join jc) with
    | (effs, some e) => ⟨s, effs, some e⟩
    | (effs, none) =>
      let r := flushQueue (fun _ => wsSendOk s) s.outgoingQueue
      let s := { s with outgoingQueue := r.2 }
      let sendEffs := r.1.map Effect.wireSend
      if r.2.isEmpty then
        ⟨s, effs ++ sendEffs ++ [Effect.broadcast KiteMsg.online none], none⟩
      else ⟨s, effs ++ sendEffs, some "Websocket is not ready"⟩

/-- `onWsClose`: compute the session duration since the last successful
open (0 when none happened), broadcast `OFFLINE`, then: when offline or no
tabs remain, null out `ws` and stop; otherwise schedule a reconnection
after `MIN_RECONNECTION_INTERVAL_MS - sessionDurationMs` when that is
positive, else reconnect immediately. -/
def onWsClose (now : Nat) (s : WorkerState) : HResult :=
  let sessionDurationMs :=
    if s.connectedTimestampMs ≠ 0 then now - s.connectedTimestampMs else 0
  let offEff := Effect.broadcast (KiteMsg.offline sessionDurationMs) none
  if s.online = false then ⟨{ s with ws := none }, [offEff], none⟩
  else if s.tabPorts.length = 0 then ⟨{ s with ws := none }, [offEff], none⟩
  else
    let timeToReconnect : Int :=
      (MIN_RECONNECTION_INTERVAL_MS : Int) - (sessionDurationMs : Int)
    if 0 < timeToReconnect then
      ⟨s, [offEff, Effect.scheduleReconnect timeToReconnect.toNat], none⟩
    else
      let r := triggerWsConnection s
      ⟨r.state, offEff :: r.effects, r.error⟩

/-- `downloadUrl`: the secondary fetch of a binary reference. The source is
`// TODO implement` and unconditionally throws. -/
def downloadUrl (url : String) : Except String File :=
  Except.error ("Not implemented downloading of " ++ url)

/-- `onWsFileMessage`: await the download of the referenced file, then push
the resulting file message to history and broadcast it. There is no
try/catch (the source marks it `// TODO try/catch`), so a download failure
escapes as an unhandled rejection with nothing appended and nothing
broadcast. -/
def onWsFileMessage (payload : BinMsg) (s : WorkerState) : HResult :=
  match downloadUrl payload.url with
  | Except.error e => ⟨s, [], some e⟩
  | Except.ok f =>
    let incoming : ContentMsg :=
      ⟨payload.messageId, payload.timestamp, payload.status, payload.edited,
        MsgBody.file f none none⟩
    ⟨{ s with messageHistory := s.messageHistory ++ [incoming] },
      [Effect.broadcast (KiteMsg.file incoming) none], none⟩

/-- `onWsPlaintextMessage`: push to history and broadcast to all tabs. -/
def onWsPlaintextMessage (payload : ContentMsg) (s : WorkerState) : HResult :=
  ⟨{ s with messageHistory := s.messageHistory ++ [payload] },
    [Effect.broadcast (KiteMsg.plaintext payload) none], none⟩

/-- `onWsMessage`: decode the frame and dispatch on its type. The switch
has cases only for `PLAINTEXT`, `BIN`, `ACK` and `ERROR`; every other frame
type (including a zip notification) falls through with no effect. -/
def onWsMessage (frame : KiteMsg) (s : WorkerState) : HResult :=
  match frame with
  | KiteMsg.plaintext m => onWsPlaintextMessage m s
  | KiteMsg.bin b => onWsFileMessage b s
  | KiteMsg.ack a => onMessageAck a s
  | KiteMsg.errorResponse _ _ => ⟨s, [], none⟩
  | _ => ⟨s, [], none⟩

/-- Merge semantics of the tab controller's `update` (`kite-chat.ts`):
`{...originalMessage, ...{file}}` replaces the file and keeps the other
fields, including batch metadata when present. -/
def patchFile (f : File) (b : MsgBody) : MsgBody :=
  match b with
  | MsgBody.file _ batchId totalFiles => MsgBody.file f batchId totalFiles
  | MsgBody.text _ => MsgBody.file f none none

/-- `onZippedMessage` (tab controller, `kite-chat.ts`): update the existing
entry with the given canonical id so it carries the archive file (an edit
of an existing record — nothing is inserted when the id is absent), then
delete every zipped prior id from the store. -/
def onZippedMessage (messageId : String) (zippedIds : List String) (f : File)
    (store : List ContentMsg) : List ContentMsg :=
  let store := store.map fun m =>
    if m.messageId = messageId then { m with body := patchFile f m.body } else m
  zippedIds.foldl (fun st i => st.filter fun m => decide (m.messageId ≠ i)) store

/-- The delay, in ms, until the connection attempt initiated by a handler's
effects: a scheduled reconnection carries its timer delay, an immediate
`new WebSocket` counts as delay 0. -/
def reconnectDelay (effs : List Effect) : Option Nat :=
  effs.findSome? fun e =>
    match e with
    | Effect.scheduleReconnect d => some d
    | Effect.connectNow _ => some 0
    | _ => none

/-- How many connection attempts (immediate or scheduled) a handler's
effects initiate. -/
def connectAttempts (effs : List Effect) : Nat :=
  effs.countP fun e =>
    match e with
    | Effect.scheduleReconnect _ => true
    | Effect.connectNow _ => true
    | _ => false

/-- `updateLastMatch` rewrites exactly the last matching element: with no
match in `post` and a match at `m`, the prefix and suffix are untouched. -/
theorem updateLastMatch_append {α : Type} (p : α → Bool) (f : α → α)
    (pre : List α) (m : α) (post : List α)
    (hm : p m = true) (hpost : ∀ x ∈ post, p x = false) :
    updateLastMatch p f (pre ++ m :: post) = pre ++ f m :: post := by
  induction pre with
  | nil =>
    have h1 : post.any p = false := by
      rw [List.any_eq_false]
      intro x hx
      simp [hpost x hx]
    simp [updateLastMatch, h1, hm]
  | cons a pre ih =>
    have hany : (pre ++ m :: post).any p = true :=
      List.any_eq_true.mpr ⟨m, by simp, hm⟩
    simp [updateLastMatch, hany, ih]

/-- C6: attaching a client immediately posts it the entire `messageHistory`
snapshot, every entry in original append order, and leaves the history
unchanged. -/
theorem onTabConnected_replay_c6 (port : Nat) (s : WorkerState) :
    (onTabConnected port s).2 = [Effect.post port (KiteMsg.connected s.messageHistory)] ∧
    (onTabConnected port s).1.messageHistory = s.messageHistory :=
  ⟨rfl, rfl⟩

/-- The concrete ack used to exhibit what `onMessageAck` broadcasts. -/
def ackC2 : MsgAck := ⟨"L", "C", 5⟩

/-- A history entry addressable by the local id "L". -/
def histMsgC2 : ContentMsg := ⟨"L", 1, MsgStatus.sent, false, MsgBody.text "hi"⟩

/-- Worker state whose history holds exactly the entry with local id "L". -/
def stateC2 : WorkerState :=
  ⟨some WsReadyState.open, none, [histMsgC2], [], [1, 2], true, 0, 0⟩

/-- The record as it stands after the ack correlation. -/
def updatedC2 : ContentMsg :=
  { histMsgC2 with messageId := "C", status := MsgStatus.delivered }

/-- C2 counterexample: on an ack for local id "L" with canonical id "C",
the history entry is indeed rewritten in place, but what is broadcast to
the attached clients is the raw ack frame, not the updated record — the
broadcast effect differs from a broadcast of the updated content message
in either of its forms. -/
theorem onMessageAck_c2_cex :
    (onMessageAck ackC2 stateC2).state.messageHistory = [updatedC2] ∧
    (onMessageAck ackC2 stateC2).effects = [Effect.broadcast (KiteMsg.ack ackC2) none] ∧
    Effect.broadcast (KiteMsg.ack ackC2) none ≠
      Effect.broadcast (KiteMsg.plaintext updatedC2) none ∧
    Effect.broadcast (KiteMsg.ack ackC2) none ≠
      Effect.broadcast (KiteMsg.file updatedC2) none := by
  decide

/-- C2 amended: given an ack for local id `L` and a history holding exactly
one entry with id `L` (the at-most-one-live-entry invariant), that entry is
mutated in place to carry the canonical id with status `delivered`, no
duplicate entry for `L` exists afterwards, and the raw ack frame is
broadcast to the attached clients (rather than the updated record). -/
theorem onMessageAck_c2_amended (a : MsgAck) (s : WorkerState)
    (pre post : List ContentMsg) (m : ContentMsg)
    (hsplit : s.messageHistory = pre ++ m :: post)
    (hm : m.messageId = a.messageId)
    (hpre : ∀ x ∈ pre, x.messageId ≠ a.messageId)
    (hpost : ∀ x ∈ post, x.messageId ≠ a.messageId) :
    (onMessageAck a s).state.messageHistory =
      pre ++ { m with messageId := a.destiationMessageId,
                      status := MsgStatus.delivered } :: post ∧
    ((onMessageAck a s).state.messageHistory.countP
        (fun x => decide (x.messageId = a.messageId))) ≤ 1 ∧
    (onMessageAck a s).effects = [Effect.broadcast (KiteMsg.ack a) none] ∧
    (onMessageAck a s).error = none := by
  have hmem : m ∈ s.messageHistory := by
    rw [hsplit]; simp
  have hany : s.messageHistory.any (fun x => decide (x.messageId = a.messageId)) = true :=
    List.any_eq_true.mpr ⟨m, hmem, by simp [hm]⟩
  have hupd :
      updateLastMatch (fun x => decide (x.messageId = a.messageId))
        (fun x => { x with messageId := a.destiationMessageId,
                           status := MsgStatus.delivered })
        s.messageHistory =
      pre ++ { m with messageId := a.destiationMessageId,
                      status := MsgStatus.delivered } :: post := by
    rw [hsplit]
    exact updateLastMatch_append _ _ pre m post (by simp [hm])
      (fun x hx => by simp [hpost x hx])
  have hhist : (onMessageAck a s).state.messageHistory =
      pre ++ { m with messageId := a.destiationMessageId,
                      status := MsgStatus.delivered } :: post := by
    simp only [onMessageAck, hany, if_true]
    exact hupd
  refine ⟨hhist, ?_, rfl, rfl⟩
  rw [hhist]
  have h0pre : pre.countP (fun x => decide (x.messageId = a.messageId)) = 0 :=
    List.countP_eq_zero.mpr fun x hx => by simp [hpre x hx]
  have h0post : post.countP (fun x => decide (x.messageId = a.messageId)) = 0 :=
    List.countP_eq_zero.mpr fun x hx => by simp [hpost x hx]
  simp [List.countP_append, List.countP_cons, h0pre, h0post]
  split_ifs <;> simp

/-- Witness for the amended C2 at the concrete one-entry history. -/
theorem onMessageAck_c2_amended_witness :
    (stateC2.messageHistory = [] ++ histMsgC2 :: []) ∧
    (histMsgC2.messageId = ackC2.messageId) ∧
    ((onMessageAck ackC2 stateC2).state.messageHistory =
        [] ++ { histMsgC2 with messageId := ackC2.destiationMessageId,
                               status := MsgStatus.delivered } :: [] ∧
      ((onMessageAck ackC2 stateC2).state.messageHistory.countP
          (fun x => decide (x.messageId = ackC2.messageId))) ≤ 1 ∧
      (onMessageAck ackC2 stateC2).effects =
        [Effect.broadcast (KiteMsg.ack ackC2) none] ∧      (onMessageAck ackC2 stateC2).error = none) :=
  ⟨by decide, by decide,
    onMessageAck_c2_amended ackC2 stateC2 [] [] histMsgC2 (by decide) (by decide)
      (by decide) (by decide)⟩

/-- C3: when the worker is online with at least one tab attached and a
successful open happened at `connectedTimestampMs ≤ now`, the close handler
initiates the next connection attempt after exactly
`MIN_RECONNECTION_INTERVAL_MS - sessionDuration` milliseconds (the
truncated subtraction is `max 0 (MIN - sessionDuration)`), so the next
attempt occurs no earlier than `MIN_RECONNECTION_INTERVAL_MS` after the
successful open — hence any attempt made at or before that open is at
least the minimum interval away from the next one, even if the close fires
immediately. -/
theorem onWsClose_throttle_c3 (s : WorkerState) (now : Nat) (jc : JoinChannel)
    (hon : s.online = true) (htabs : s.tabPorts.length ≠ 0)
    (hjc : s.joinChannel = some jc)
    (hts : s.connectedTimestampMs ≠ 0) (hle : s.connectedTimestampMs ≤ now) :
    reconnectDelay (onWsClose now s).effects =
      some (MIN_RECONNECTION_INTERVAL_MS - (now - s.connectedTimestampMs)) ∧
    s.connectedTimestampMs + MIN_RECONNECTION_INTERVAL_MS ≤
      now + (MIN_RECONNECTION_INTERVAL_MS - (now - s.connectedTimestampMs)) ∧
    (∀ tPrev : Nat, tPrev ≤ s.connectedTimestampMs →
      tPrev + MIN_RECONNECTION_INTERVAL_MS ≤
        now + (MIN_RECONNECTION_INTERVAL_MS - (now - s.connectedTimestampMs))) := by
  refine ⟨?_, by omega, fun tPrev h => by omega⟩
  simp [onWsClose, reconnectDelay, triggerWsConnection, hjc, hon, hts, htabs]
  split_ifs with hpos
  · simp [List.findSome?]
  · simp [List.findSome?]
    omega

/-- The join config used in the C3 witness state. -/
def jcC3 : JoinChannel := ⟨"wss://host/?c=k1", "u1", false⟩

/-- A worker state that went through a successful open at t = 100ms, with
one tab attached and online. -/
def stateC3 : WorkerState :=
  ⟨some WsReadyState.closed, some jcC3, [], [], [3], true, 100, 1⟩

/-- Witness for C3: close at t = 150ms after an open at t = 100ms schedules
the next attempt 59950ms later, i.e. exactly at open time + 60000ms. -/
theorem onWsClose_throttle_c3_witness :
    stateC3.online = true ∧ stateC3.tabPorts.length = 1 ∧
    stateC3.connectedTimestampMs = 100 ∧
    reconnectDelay (onWsClose 150 stateC3).effects =
      some (MIN_RECONNECTION_INTERVAL_MS - (150 - stateC3.connectedTimestampMs)) ∧
    stateC3.connectedTimestampMs + MIN_RECONNECTION_INTERVAL_MS ≤
      150 + (MIN_RECONNECTION_INTERVAL_MS - (150 - stateC3.connectedTimestampMs)) :=
  ⟨rfl, rfl, rfl,
    (onWsClose_throttle_c3 stateC3 150 jcC3 rfl (by decide) rfl (by decide) (by decide)).1,
    (onWsClose_throttle_c3 stateC3 150 jcC3 rfl (by decide) rfl (by decide) (by decide)).2.1⟩

/-- After any join, the stored config keeps its endpoint and member and ORs
in the new request's `eagerlyConnect` — the OR mutation happens before the
endpoint check, so it persists even for a conflicting join. -/
theorem onJoinChannel_stored (p : JoinChannel) (s : WorkerState) (jc : JoinChannel)
    (h : s.joinChannel = some jc) :
    (onJoinChannel p s).state.joinChannel =
      some { jc with eagerlyConnect := jc.eagerlyConnect || p.eagerlyConnect } := by
  simp [onJoinChannel, h, triggerWsConnection]
  split_ifs <;> rfl

/-- The first join stores its own config verbatim and raises no error. -/
theorem onJoinChannel_first (p : JoinChannel) (s : WorkerState)
    (h : s.joinChannel = none) :
    (onJoinChannel p s).state.joinChannel = some p ∧ (onJoinChannel p s).error = none := by
  simp [onJoinChannel, h, triggerWsConnection]
  split_ifs <;> simp

/-- Folding any sequence of joins over a state that already stores a config
keeps the endpoint and member and ORs up the `eagerlyConnect` flags. -/
theorem applyJoins_stored (ps : List JoinChannel) :
    ∀ (s : WorkerState) (jc : JoinChannel), s.joinChannel = some jc →
    (applyJoins ps s).joinChannel =
      some ⟨jc.endpoint, jc.memberId,
            jc.eagerlyConnect || ps.any (fun j => j.eagerlyConnect)⟩ := by
  induction ps with
  | nil => intro s jc h; simp [applyJoins, h]
  | cons q qs ih =>
    intro s jc h
    have hstep := onJoinChannel_stored q s jc h
    have hrec := ih (onJoinChannel q s).state _ hstep
    rw [show applyJoins (q :: qs) s = applyJoins qs (onJoinChannel q s).state from rfl]
    rw [hrec]
    simp [Bool.or_assoc]

/-- C5: the first join of a sequence establishes the shared config — after
any further joins the stored endpoint is still the first join's endpoint
and the stored `eagerlyConnect` is the OR of all the joins' flags — and a
join whose endpoint differs from the stored one fails with the
configuration-conflict error while leaving the history, queue, websocket
and tab registry untouched and emitting nothing. -/
theorem joinChannel_c5 (s0 : WorkerState) (p : JoinChannel) (ps : List JoinChannel)
    (s : WorkerState) (jc q : JoinChannel)
    (h0 : s0.joinChannel = none)
    (hs : s.joinChannel = some jc) (hne : q.endpoint ≠ jc.endpoint) :
    (applyJoins (p :: ps) s0).joinChannel =
      some ⟨p.endpoint, p.memberId,
            p.eagerlyConnect || ps.any (fun j => j.eagerlyConnect)⟩ ∧
    (onJoinChannel q s).error =
      some "Cannot use different chat endpoints for the same domain" ∧
    (onJoinChannel q s).state.joinChannel =
      some { jc with eagerlyConnect := jc.eagerlyConnect || q.eagerlyConnect } ∧
    (onJoinChannel q s).state.messageHistory = s.messageHistory ∧
    (onJoinChannel q s).state.outgoingQueue = s.outgoingQueue ∧
    (onJoinChannel q s).state.ws = s.ws ∧
    (onJoinChannel q s).state.tabPorts = s.tabPorts ∧
    (onJoinChannel q s).effects = [] := by
  have hne' : jc.endpoint ≠ q.endpoint := Ne.symm hne
  refine ⟨?_, ?_⟩
  · have h1 := (onJoinChannel_first p s0 h0).1
    rw [show applyJoins (p :: ps) s0 = applyJoins ps (onJoinChannel p s0).state from rfl]
    exact applyJoins_stored ps _ p h1
  · simp [onJoinChannel, hs, hne']

/-- First-join config of the join witnesses. -/
def jcA : JoinChannel := ⟨"wss://a/?c=x", "u1", false⟩

/-- A later join with the same endpoint but `eagerlyConnect = true`. -/
def jcB : JoinChannel := ⟨"wss://a/?c=x", "u2", true⟩

/-- A join with a conflicting endpoint and `eagerlyConnect = true`. -/
def jcY : JoinChannel := ⟨"wss://b/?c=y", "u3", true⟩

/-- A join with a conflicting endpoint and `eagerlyConnect = false`. -/
def jcX : JoinChannel := ⟨"wss://b/?c=y", "u3", false⟩

/-- A fresh worker state with no stored join config. -/
def s0C5 : WorkerState := ⟨none, none, [], [], [1], true, 0, 0⟩

/-- A worker state that already stores `jcA`. -/
def sC5 : WorkerState := ⟨none, some jcA, [], [], [1], true, 0, 0⟩

/-- Witness for C5: joins `[jcA, jcB]` leave endpoint "wss://a/?c=x" with
`eagerlyConnect` ORed to true, and the conflicting `jcX` errors without
touching the stored endpoint. -/
theorem joinChannel_c5_witness :
    (applyJoins [jcA, jcB] s0C5).joinChannel =
      some ⟨jcA.endpoint, jcA.memberId,
            jcA.eagerlyConnect || [jcB].any (fun j => j.eagerlyConnect)⟩ ∧
    (onJoinChannel jcX sC5).error =
      some "Cannot use different chat endpoints for the same domain" ∧
    (onJoinChannel jcX sC5).state.joinChannel =
      some { jcA with eagerlyConnect := jcA.eagerlyConnect || jcX.eagerlyConnect } := by
  have h := joinChannel_c5 s0C5 jcA [jcB] sC5 jcA jcX rfl rfl (by decide)
  exact ⟨h.1, h.2.1, h.2.2.1⟩

/-- C10: a join with a conflicting endpoint still ORs its `eagerlyConnect`
into the shared config before the conflict error is raised — a rejected
join can permanently flip the stored flag from false to true — while the
stored endpoint is never modified by any join after the first. -/
theorem joinChannel_eager_or_c10 (s : WorkerState) (jc q : JoinChannel)
    (hs : s.joinChannel = some jc) (hne : q.endpoint ≠ jc.endpoint)
    (hflag : jc.eagerlyConnect = false) (hq : q.eagerlyConnect = true) :
    (onJoinChannel q s).error.isSome = true ∧
    (onJoinChannel q s).state.joinChannel = some ⟨jc.endpoint, jc.memberId, true⟩ ∧
    (∀ (s2 : WorkerState) (jc2 p2 : JoinChannel), s2.joinChannel = some jc2 →
      ∃ jc3, (onJoinChannel p2 s2).state.joinChannel = some jc3 ∧
        jc3.endpoint = jc2.endpoint) := by
  have hne' : jc.endpoint ≠ q.endpoint := Ne.symm hne
  refine ⟨?_, ?_, ?_⟩
  · simp [onJoinChannel, hs, hne']
  · simp [onJoinChannel, hs, hne', hflag, hq]
  · intro s2 jc2 p2 h2
    exact ⟨_, onJoinChannel_stored p2 s2 jc2 h2, rfl⟩

/-- Witness for C10: the rejected eager join `jcY` flips the stored flag. -/
theorem joinChannel_eager_or_c10_witness :
    sC5.joinChannel = some jcA ∧ jcA.eagerlyConnect = false ∧
    jcY.eagerlyConnect = true ∧
    (onJoinChannel jcY sC5).error.isSome = true ∧
    (onJoinChannel jcY sC5).state.joinChannel =
      some ⟨jcA.endpoint, jcA.memberId, true⟩ := by
  have h := joinChannel_eager_or_c10 sC5 jcA jcY rfl (by decide) rfl rfl
  exact ⟨rfl, rfl, rfl, h.1, h.2.1⟩

/-- The join config of the C7 states: `eagerlyConnect` off. -/
def jcC7 : JoinChannel := ⟨"wss://e/?c=k", "u1", false⟩

/-- A pending outgoing message in the C7 states. -/
def msgC7 : ContentMsg := ⟨"m1", 1, MsgStatus.unknown, false, MsgBody.text "hello"⟩

/-- Worker state after the last tab detached and the socket closed:
no tabs, `ws` null, online, and a non-empty outgoing queue. -/
def stateC7 : WorkerState :=
  ⟨none, some jcC7, [msgC7], [KiteMsg.plaintext msgC7], [], true, 0, 0⟩

/-- C7 counterexample: in a state with `online = true`, a non-empty
outgoing queue and the transport torn down, a client attach
(`onTabConnected`) triggers zero reconnection attempts — not the exactly
one the claim asserts: the attempt counter is untouched and no connection
is initiated or scheduled. -/
theorem attach_reconnect_c7_cex :
    stateC7.online = true ∧ stateC7.outgoingQueue ≠ [] ∧ stateC7.ws = none ∧
    stateC7.tabPorts = [] ∧
    (onTabConnected 7 stateC7).1.reconnectionAttempts = 0 ∧
    connectAttempts (onTabConnected 7 stateC7).2 = 0 := by
  decide

/-- C7 amended: after the last attached client detaches, the websocket is
closed (code 1001); a subsequent attach by itself triggers zero
reconnection attempts; the reconnection happens when the attached client
next sends a message while online with the transport down — at that point
exactly one attempt is triggered, not a storm. -/
theorem attach_reconnect_c7_amended :
    (∀ (s1 : WorkerState) (p : Nat) (st : WsReadyState),
      s1.tabPorts = [p] → s1.ws = some st →
      Effect.wsClose 1001 "all active tabs closed" ∈ (onTabDisconnected p s1).2) ∧
    (∀ (s2 : WorkerState) (q : Nat),
      (onTabConnected q s2).1.reconnectionAttempts = s2.reconnectionAttempts ∧
      connectAttempts (onTabConnected q s2).2 = 0) ∧
    (∀ (s3 : WorkerState) (m : ContentMsg) (port : Nat) (jc : JoinChannel),
      s3.ws = none → s3.online = true → s3.joinChannel = some jc →
      (onPlaintextMessage m port s3).state.reconnectionAttempts =
        s3.reconnectionAttempts + 1 ∧
      connectAttempts (onPlaintextMessage m port s3).effects = 1 ∧
      (onPlaintextMessage m port s3).error = none) := by
  refine ⟨?_, ?_, ?_⟩
  · intro s1 p st htp hws
    simp [onTabDisconnected, htp, hws]
  · intro s2 q
    constructor
    · rfl
    · simp [onTabConnected, connectAttempts]
  · intro s3 m port jc hws hon hjc
    refine ⟨?_, ?_, ?_⟩ <;>
      simp [onPlaintextMessage, triggerWsConnection, connectAttempts, hws, hon, hjc]

/-- Worker state with one tab and an open socket, for the detach part of
the C7 witness. -/
def s1C7 : WorkerState := ⟨some WsReadyState.open, some jcC7, [], [], [4], true, 10, 1⟩

/-- Witness for the amended C7 at concrete states: the last detach closes
the socket, an attach triggers no attempt, the next send triggers one. -/
theorem attach_reconnect_c7_amended_witness :
    Effect.wsClose 1001 "all active tabs closed" ∈ (onTabDisconnected 4 s1C7).2 ∧
    (onTabConnected 7 stateC7).1.reconnectionAttempts = stateC7.reconnectionAttempts ∧
    connectAttempts (onTabConnected 7 stateC7).2 = 0 ∧
    (onPlaintextMessage msgC7 7 stateC7).state.reconnectionAttempts =
      stateC7.reconnectionAttempts + 1 ∧
    connectAttempts (onPlaintextMessage msgC7 7 stateC7).effects = 1 := by
  have h := attach_reconnect_c7_amended
  exact ⟨h.1 s1C7 4 WsReadyState.open rfl rfl, (h.2.1 stateC7 7).1, (h.2.1 stateC7 7).2,
    (h.2.2 stateC7 msgC7 7 jcC7 rfl rfl rfl).1,
    (h.2.2 stateC7 msgC7 7 jcC7 rfl rfl rfl).2.1⟩

/-- Flushing with a send that always succeeds drains the whole queue. -/
theorem flushQueue_true {α : Type} (q : List α) :
    flushQueue (fun _ => true) q = (q, []) :=
  flushQueue_all _ q (fun _ _ => rfl)

/-- C9: on a successful websocket open with a stored join config, the wire
frames are the join frame first, then every queued envelope in order, and
the `ONLINE` broadcast to tabs comes only after the flush; afterwards the
queue is empty and the connection timestamp records the open time. -/
theorem onWsOpen_order_c9 (s : WorkerState) (now : Nat) (jc : JoinChannel)
    (hjc : s.joinChannel = some jc) (hws : s.ws = some WsReadyState.open) :
    (onWsOpen now s).effects =
      Effect.wireSend (KiteMsg.join jc) ::
        (s.outgoingQueue.map Effect.wireSend ++ [Effect.broadcast KiteMsg.online none]) ∧
    (onWsOpen now s).state.outgoingQueue = [] ∧
    (onWsOpen now s).error = none ∧
    (onWsOpen now s).state.connectedTimestampMs = now := by
  refine ⟨?_, ?_, ?_, ?_⟩ <;>
    simp [onWsOpen, wsSend, wsSendOk, hjc, hws, flushQueue_true]

/-- Join config of the C9 witness. -/
def jcC9 : JoinChannel := ⟨"wss://c/?c=z", "u9", true⟩

/-- A queued plaintext message of the C9 witness. -/
def msgC9 : ContentMsg := ⟨"m2", 2, MsgStatus.unknown, false, MsgBody.text "yo"⟩

/-- A queued upload intent of the C9 witness. -/
def upC9 : Upload := ⟨"m3", "a.txt", "text/plain", 3⟩

/-- Worker state at the moment the socket opens, with two queued frames. -/
def stateC9 : WorkerState :=
  ⟨some WsReadyState.open, some jcC9, [msgC9],
    [KiteMsg.plaintext msgC9, KiteMsg.upload upC9], [1, 2], true, 0, 3⟩

/-- Witness for C9 at a concrete two-envelope queue. -/
theorem onWsOpen_order_c9_witness :
    stateC9.joinChannel = some jcC9 ∧ stateC9.ws = some WsReadyState.open ∧
    ((onWsOpen 42 stateC9).effects =
      Effect.wireSend (KiteMsg.join jcC9) ::
        (stateC9.outgoingQueue.map Effect.wireSend ++
          [Effect.broadcast KiteMsg.online none]) ∧
     (onWsOpen 42 stateC9).state.outgoingQueue = [] ∧
     (onWsOpen 42 stateC9).error = none ∧
     (onWsOpen 42 stateC9).state.connectedTimestampMs = 42) :=
  ⟨rfl, rfl, onWsOpen_order_c9 stateC9 42 jcC9 rfl rfl⟩

/-- C8: the worker's handling of a binary-reference message always fails —
`downloadUrl` is unimplemented and there is no try/catch — so for every
incoming `BinMsg` the rejection escapes the handler unhandled, nothing is
appended to the history, nothing is broadcast, and in particular no
failed-message event is surfaced to clients. -/
theorem onWsFileMessage_c8_bug (payload : BinMsg) (s : WorkerState) :
    onWsFileMessage payload s =
      ⟨s, [], some ("Not implemented downloading of " ++ payload.url)⟩ := rfl

/-- Membership after the zipped-ids delete pass: an entry survives iff it
was in the store and its id is none of the deleted ids. -/
theorem mem_zipDelete (ids : List String) :
    ∀ (st : List ContentMsg) (m : ContentMsg),
    (m ∈ ids.foldl (fun st i => st.filter fun x => decide (x.messageId ≠ i)) st) ↔
      m ∈ st ∧ ∀ i ∈ ids, m.messageId ≠ i := by
  induction ids with
  | nil => intro st m; simp
  | cons i rest ih =>
    intro st m
    have hfold : (i :: rest).foldl
        (fun st j => st.filter fun x => decide (x.messageId ≠ j)) st
        = rest.foldl (fun st j => st.filter fun x => decide (x.messageId ≠ j))
            (st.filter fun x => decide (x.messageId ≠ i)) := rfl
    rw [hfold, ih]
    simp [List.mem_filter]
    tauto

/-- C4 amended: the worker multiplexer ignores a zip notification — its
state, history included, is unchanged and no client is told anything — and
the consolidation instead lives in the tab controller's `onZippedMessage`:
every zipped prior id is removed from the tab's store, an already-present
entry with the composite id is updated in place to carry the archive file,
and no entry with the composite id is inserted when none existed (an
update, not an upsert). -/
theorem zipped_consolidation_c4_amended
    (s : WorkerState) (mid : String) (ids : List String) (url : String)
    (store : List ContentMsg) (f : File)
    (hnotin : mid ∉ ids) :
    (onWsMessage (KiteMsg.zipped mid ids url) s).state = s ∧
    (onWsMessage (KiteMsg.zipped mid ids url) s).effects = [] ∧
    (∀ i ∈ ids, ∀ m ∈ onZippedMessage mid ids f store, m.messageId ≠ i) ∧
    (∀ m ∈ store, m.messageId = mid →
      { m with body := patchFile f m.body } ∈ onZippedMessage mid ids f store) ∧
    ((∀ m ∈ store, m.messageId ≠ mid) →
      ∀ m ∈ onZippedMessage mid ids f store, m.messageId ≠ mid) := by
  refine ⟨rfl, rfl, ?_, ?_, ?_⟩
  · intro i hi m hm
    exact ((mem_zipDelete ids _ m).mp hm).2 i hi
  · intro m hm hmid
    apply (mem_zipDelete ids _ _).mpr
    constructor
    · refine List.mem_map.mpr ⟨m, hm, ?_⟩
      simp [hmid]
    · intro i hi
      show ({ m with body := patchFile f m.body } : ContentMsg).messageId ≠ i
      have : ({ m with body := patchFile f m.body } : ContentMsg).messageId = m.messageId := rfl
      rw [this, hmid]
      intro he
      exact hnotin (he ▸ hi)
  · intro habs m hm
    have h2 := (mem_zipDelete ids _ m).mp hm
    obtain ⟨x, hx, hfx⟩ := List.mem_map.mp h2.1
    by_cases hxm : x.messageId = mid
    · exact absurd hxm (habs x hx)
    · rw [if_neg hxm] at hfx
      rw [← hfx]
      exact habs x hx

/-- A delivered file message with id "f1". -/
def fileAC4 : ContentMsg :=
  ⟨"f1", 1, MsgStatus.delivered, false, MsgBody.file ⟨"a.txt", "text/plain", 3⟩ none none⟩

/-- A delivered file message with id "f2". -/
def fileBC4 : ContentMsg :=
  ⟨"f2", 2, MsgStatus.delivered, false, MsgBody.file ⟨"b.txt", "text/plain", 4⟩ none none⟩

/-- Worker state whose history holds the two file messages f1 and f2. -/
def stateC4 : WorkerState :=
  ⟨some WsReadyState.open, none, [fileAC4, fileBC4], [], [1, 2], true, 10, 1⟩

/-- A backend notification that f1 and f2 were archived into m200. -/
def zipFrameC4 : KiteMsg := KiteMsg.zipped "m200" ["f1", "f2"] "wss://files/archive.zip"

/-- C4 counterexample: the worker's message dispatch has no case for a zip
notification, so on receiving the report that f1 and f2 were archived into
m200 the state is untouched and no effect is emitted: the history still
contains f1 (and f2) and does not contain m200, and no attached client is
told to remove or upsert anything — contradicting the claim. -/
theorem onWsMessage_zipped_c4_cex :
    (onWsMessage zipFrameC4 stateC4).state = stateC4 ∧
    (onWsMessage zipFrameC4 stateC4).effects = [] ∧
    (onWsMessage zipFrameC4 stateC4).error = none ∧
    stateC4.messageHistory.any (fun m => decide (m.messageId = "f1")) = true ∧
    (onWsMessage zipFrameC4 stateC4).state.messageHistory.any
      (fun m => decide (m.messageId = "f1")) = true ∧
    (onWsMessage zipFrameC4 stateC4).state.messageHistory.any
      (fun m => decide (m.messageId = "m200")) = false := by
  decide

/-- The archive file delivered with the zip notification. -/
def archC4 : File := ⟨"archive.zip", "application/zip", 7⟩

/-- A pre-existing store entry with the composite id "m200". -/
def mC4 : ContentMsg :=
  ⟨"m200", 3, MsgStatus.delivered, false,
    MsgBody.file ⟨"old.zip", "application/zip", 1⟩ none none⟩

/-- A tab-controller store holding f1, f2 and the composite entry. -/
def storeC4 : List ContentMsg := [fileAC4, fileBC4, mC4]

/-- Witness for the amended C4: the worker state is unchanged, the
composite entry survives consolidation carrying the archive file, and no
entry with id f1 or f2 remains in the tab store. -/
theorem zipped_consolidation_c4_amended_witness :
    (onWsMessage (KiteMsg.zipped "m200" ["f1", "f2"] "wss://files/archive.zip")
        stateC4).state = stateC4 ∧
    { mC4 with body := patchFile archC4 mC4.body } ∈
      onZippedMessage "m200" ["f1", "f2"] archC4 storeC4 ∧
    (onZippedMessage "m200" ["f1", "f2"] archC4 storeC4).all
      (fun m => decide (m.messageId ≠ "f1") && decide (m.messageId ≠ "f2")) = true :=
  have h := zipped_consolidation_c4_amended stateC4 "m200" ["f1", "f2"]
    "wss://files/archive.zip" storeC4 archC4 (by decide)
  ⟨h.1, h.2.2.2.1 mC4 (by decide) rfl, by decide⟩
